import Mathlib

/-!
Shallow embedding of the Travelbolt admin package form and data hook
(`src/components/admin/AddEditPackageModal.tsx`, `src/hooks/usePackages.ts`).

JavaScript strings are modelled as Lean `String`, JS numbers that arise
from `parseInt` / `parseFloat` as `Option Int` / `Option Rat` (with `none`
playing the role of `NaN`), and each asynchronous backend call's outcome as
an explicit `Except`/`Option` parameter threaded through the operation.
-/

namespace Travelbolt

/-- The decimal-digit prefix of a character list
(the digits JS `parseInt` consumes before stopping at a non-digit). -/
def leadingDigits : List Char → List Char
  | [] => []
  | c :: cs => if c.isDigit then c :: leadingDigits cs else []

/-- Value of a list of decimal digit characters, most significant first. -/
def natOfDigits (ds : List Char) : Nat :=
  ds.foldl (fun a c => a * 10 + (c.toNat - '0'.toNat)) 0

/-- Whitespace trimming on both ends, computed structurally on the
character list (kernel-reducible model of JS `String.prototype.trim`). -/
def jsTrim (s : String) : String :=
  ⟨((s.data.dropWhile Char.isWhitespace).reverse.dropWhile Char.isWhitespace).reverse⟩

/-- JS `parseInt(s)` (decimal): skip leading whitespace, optional sign,
consume the decimal-digit prefix; `none` models `NaN` (no digits found). -/
def jsParseInt (s : String) : Option Int :=
  let cs := s.data.dropWhile Char.isWhitespace
  let signed : Int × List Char :=
    match cs with
    | '-' :: r => (-1, r)
    | '+' :: r => (1, r)
    | r => (1, r)
  let ds := leadingDigits signed.2
  if ds.isEmpty then none
  else some (signed.1 * (natOfDigits ds : Int))

/-- A finite decimal `num / 10 ^ exp`, kept unnormalised so that kernel
reduction works; the value a JS `parseFloat` call produces. -/
structure DecimalNum where
  num : Int
  exp : Nat
deriving DecidableEq, Repr

/-- The rational value of a `DecimalNum`. -/
def DecimalNum.toRat (d : DecimalNum) : Rat := (d.num : Rat) / (10 : Rat) ^ d.exp

/-- JS `parseFloat(s)`: skip leading whitespace, optional sign, decimal
digits with an optional fractional part; `none` models `NaN`. -/
def jsParseFloat (s : String) : Option DecimalNum :=
  let cs := s.data.dropWhile Char.isWhitespace
  let signed : Int × List Char :=
    match cs with
    | '-' :: r => (-1, r)
    | '+' :: r => (1, r)
    | r => (1, r)
  let intDs := leadingDigits signed.2
  let rest := signed.2.drop intDs.length
  let fracDs :=
    match rest with
    | '.' :: r => leadingDigits r
    | _ => []
  if intDs.isEmpty && fracDs.isEmpty then none
  else
    some ⟨signed.1 * ((natOfDigits intDs * 10 ^ fracDs.length + natOfDigits fracDs : Nat) : Int),
          fracDs.length⟩

/-- The sign of a `DecimalNum`'s value is the sign of its numerator, so
`parseFloat(price) <= 0` is the numerator test used in `priceInvalid`. -/
theorem DecimalNum.toRat_nonpos_iff (d : DecimalNum) : d.toRat ≤ 0 ↔ d.num ≤ 0 := by
  unfold DecimalNum.toRat
  rw [div_nonpos_iff]
  constructor
  · rintro (⟨h1, h2⟩ | ⟨h1, h2⟩)
    · have : (0 : Rat) < 10 ^ d.exp := by positivity
      exact absurd h2 (not_le.mpr this)
    · exact_mod_cast h1
  · intro h
    exact Or.inr ⟨by exact_mod_cast h, by positivity⟩

/-- JS `!s.trim()` for a string `s`: blank after trimming. -/
def isBlank (s : String) : Bool := (jsTrim s).data.isEmpty

/-- Transient state of `AddEditPackageModal` relevant to submission:
the controlled field values (all held as the raw strings of the inputs),
the per-day itinerary texts, the inline error message and the loading flag. -/
structure FormState where
  title : String
  description : String
  duration : String
  price : String
  mainImageUrl : String
  selectedDestinationId : String
  itineraryDescriptions : List String
  errorMsg : String
  loading : Bool
deriving DecidableEq, Repr

/-- The condition of `handleSubmit`'s duration check,
`!duration || parseInt(duration) <= 0`: note that when `parseInt` yields
`NaN` the comparison `NaN <= 0` is false, so the check passes. -/
def durationInvalid (s : String) : Bool :=
  s == "" ||
    match jsParseInt s with
    | some n => n ≤ 0
    | none => false

/-- The condition of `handleSubmit`'s price check,
`!price || parseFloat(price) <= 0` (again false on `NaN`). -/
def priceInvalid (s : String) : Bool :=
  s == "" ||
    match jsParseFloat s with
    | some q => q.num ≤ 0
    | none => false

/-- The validation cascade of `handleSubmit`
(`AddEditPackageModal.tsx` lines 86-119): the message of the first failing
check, or `none` when every check passes. -/
def validateForm (st : FormState) : Option String :=
  if st.selectedDestinationId == "" then some "Please select a destination"
  else if isBlank st.title then some "Title is required"
  else if isBlank st.description then some "Description is required"
  else if durationInvalid st.duration then some "Valid duration is required"
  else if priceInvalid st.price then some "Valid price is required"
  else if isBlank st.mainImageUrl then some "Main image URL is required"
  else if st.itineraryDescriptions.length == 0 then some "At least one itinerary day is required"
  else if st.itineraryDescriptions.any (fun d => isBlank d) then
    some "Please fill in all itinerary descriptions"
  else none

/-- The record assembled by `handleSubmit` and handed to the injected
`onSave` callback (`packageData` plus the trimmed itinerary list).
`duration`/`price` are the raw `parseInt`/`parseFloat` results, with `none`
playing `NaN`. -/
structure SaveArg where
  id : Option String
  destination_id : String
  title : String
  description : String
  duration : Option Int
  price : Option DecimalNum
  main_image_url : String
  rating : Rat
  itineraryDescriptions : List String

/-- Assembly of the save argument on the success path of `handleSubmit`
(`AddEditPackageModal.tsx` lines 121-135). `pkgId`/`pkgRating` model
`pkg?.id` and `pkg?.rating` of the optionally-passed existing package. -/
def assembleSaveArg (pkgId : Option String) (pkgRating : Option Rat) (st : FormState) : SaveArg :=
  { id := pkgId
    destination_id := st.selectedDestinationId
    title := jsTrim st.title
    description := jsTrim st.description
    duration := jsParseInt st.duration
    price := jsParseFloat st.price
    main_image_url := jsTrim st.mainImageUrl
    rating := pkgRating.getD 0
    itineraryDescriptions := st.itineraryDescriptions.map jsTrim }

/-- Observable outcome of one `handleSubmit` run: the new form state, the
argument `onSave` was invoked with (`none` when it was never called), and
whether `onClose` was invoked. -/
structure SubmitResult where
  state : FormState
  saveArg : Option SaveArg
  closed : Bool

/-- `handleSubmit` (`AddEditPackageModal.tsx` lines 81-143): clears the
error, validates, assembles the record and calls `onSave`, closing on
success; any thrown message (validation or save) lands in `errorMsg` and
the modal stays open. `saveOutcome` models the awaited result of the
injected `onSave` callback; the `finally` clause returns `loading` to
`false` in every branch. -/
def handleSubmit (pkgId : Option String) (pkgRating : Option Rat)
    (saveOutcome : Except String Unit) (st : FormState) : SubmitResult :=
  match validateForm st with
  | some msg => ⟨{ st with errorMsg := msg, loading := false }, none, false⟩
  | none =>
    let a := assembleSaveArg pkgId pkgRating st
    match saveOutcome with
    | .ok _ => ⟨{ st with errorMsg := "", loading := false }, some a, true⟩
    | .error msg => ⟨{ st with errorMsg := msg, loading := false }, some a, false⟩

/-- The `useEffect` on `[duration]` (`AddEditPackageModal.tsx` lines
38-56): resize the itinerary list to `parseInt(duration) || 0` days,
keeping existing entries, padding with `""`, truncating from the end;
a non-positive or unparsable duration empties the list. -/
def durationEffect (duration : String) (prev : List String) : List String :=
  let days : Int := (jsParseInt duration).getD 0
  if 0 < days then prev.take days.toNat ++ List.replicate (days.toNat - prev.length) ""
  else []

/-- `handleItineraryChange` (`AddEditPackageModal.tsx` lines 145-151):
copy the list and overwrite the entry at `index`. (`List.set` matches the
JS element assignment for every in-bounds index.) -/
def handleItineraryChange (prev : List String) (index : Nat) (value : String) : List String :=
  prev.set index value

/-- A row of the `packages` table as the hook caches it. -/
structure Pkg where
  id : String
  destination_id : String
  title : String
  created_at : Nat
deriving DecidableEq, Repr

/-- The `usePackages` hook state: the cached package list, the loading
flag and the error string. -/
structure HookState where
  packages : List Pkg
  loading : Bool
  errorMsg : Option String
deriving DecidableEq, Repr

/-- Insert one package into a list kept ordered by `created_at`
descending (backend `order('created_at', descending)` model). -/
def insertByCreatedDesc (p : Pkg) : List Pkg → List Pkg
  | [] => [p]
  | q :: qs => if q.created_at ≤ p.created_at then p :: q :: qs else q :: insertByCreatedDesc p qs

/-- Backend ordering of a table by `created_at` descending. -/
def orderByCreatedDesc (db : List Pkg) : List Pkg := db.foldr insertByCreatedDesc []

/-- The query `fetchPackages` builds (`usePackages.ts` lines 12-19):
all packages ordered by creation time descending, restricted with
`eq('destination_id', destinationId)` when a filter is given. -/
def buildQuery (destinationId : Option String) (db : List Pkg) : List Pkg :=
  match destinationId with
  | some d => (orderByCreatedDesc db).filter (fun p => p.destination_id == d)
  | none => orderByCreatedDesc db

/-- `fetchPackages` (`usePackages.ts` lines 10-30) as a state transition:
`resp` is the awaited backend answer (`.ok data` with `data` possibly
null, or an error message). Success stores `data || []`; failure only
sets the error string; `finally` clears `loading`. -/
def fetchPackages (resp : Except String (Option (List Pkg))) (st : HookState) : HookState :=
  match resp with
  | .ok data => { st with packages := data.getD [], loading := false }
  | .error msg => { st with errorMsg := some msg, loading := false }

/-- `deletePackage` (`usePackages.ts` lines 69-82): on remote success,
drop the cached entries whose `id` matches; on remote failure rethrow
without touching the cache. -/
def deletePackage (id : String) (remote : Except String Unit) (st : HookState) :
    Except String HookState :=
  match remote with
  | .error e => .error e
  | .ok _ => .ok { st with packages := st.packages.filter (fun p => p.id != id) }

/-- A row of the `package_itinerary` table. -/
structure ItinRow where
  package_id : String
  no_of_days : Nat
  description : List String
deriving DecidableEq, Repr

/-- `addOrUpdateItinerary` (`usePackages.ts` lines 84-119) over an
itinerary-table state `db`. The existence probe is `maybeSingle()`; its
destructuring reads only `data`, so a probe error (`checkErr`) is
silently treated as absence. When a row exists, the update writes ONLY
`description` (not `no_of_days`); otherwise a fresh row is inserted with
`no_of_days = description.length`. `writeErr` models a backend failure of
whichever write runs, which is rethrown. -/
def addOrUpdateItinerary (packageId : String) (descs : List String) (db : List ItinRow)
    (checkErr : Option String) (writeErr : Option String) : Except String (List ItinRow) :=
  let existing : Option ItinRow :=
    if checkErr.isSome then none else db.find? (fun r => r.package_id == packageId)
  match existing with
  | some _ =>
    match writeErr with
    | some e => .error e
    | none => .ok (db.map (fun r =>
        if r.package_id == packageId then { r with description := descs } else r))
  | none =>
    match writeErr with
    | some e => .error e
    | none => .ok (db ++ [{ package_id := packageId, no_of_days := descs.length,
                            description := descs }])

/-- One remote write attempted during the composite save, in order. -/
inductive SaveEvent where
  | pkgUpdate (id : String)
  | pkgInsert
  | itineraryUpsert (package_id : String)
deriving DecidableEq, Repr

/-- The package-write step of the composite save: `updatePackage` when
`pkg.id` is present, `addPackage` otherwise. -/
def pkgEvent (pkgId : Option String) : SaveEvent :=
  match pkgId with
  | some i => .pkgUpdate i
  | none => .pkgInsert

/-- `addOrUpdatePackageWithItinerary` (`usePackages.ts` lines 137-171):
validate the descriptions, write the package (update when `pkg.id` is
present, insert otherwise — `pkgWrite` models the awaited backend result
of that write), then upsert the itinerary under the saved package's id;
any failure aborts the remaining steps and propagates. The second
component records the remote writes attempted, in order. -/
def addOrUpdatePackageWithItinerary (pkgId : Option String) (descs : List String)
    (pkgWrite : Except String Pkg) (itinDb : List ItinRow)
    (checkErr : Option String) (writeErr : Option String) :
    Except String (Pkg × List ItinRow) × List SaveEvent :=
  if descs.length = 0 then (.error "Itinerary descriptions are required", [])
  else if descs.any (fun d => isBlank d) then
    (.error "All itinerary descriptions must be filled out", [])
  else
    match pkgWrite with
    | .error e => (.error e, [pkgEvent pkgId])
    | .ok saved =>
      match addOrUpdateItinerary saved.id descs itinDb checkErr writeErr with
      | .error e => (.error e, [pkgEvent pkgId, .itineraryUpsert saved.id])
      | .ok db2 => (.ok (saved, db2), [pkgEvent pkgId, .itineraryUpsert saved.id])

/-- First failing check of an ordered list of `(failed, message)` pairs. -/
def firstFailing : List (Bool × String) → Option String
  | [] => none
  | (b, m) :: rest => if b then some m else firstFailing rest

/-- The submit checks as an explicit ordered list: destination, title,
description, duration, price, image URL, itinerary non-empty, itinerary
entries non-blank — each paired with its specific message. -/
def submitChecks (st : FormState) : List (Bool × String) :=
  [ (st.selectedDestinationId == "", "Please select a destination"),
    (isBlank st.title, "Title is required"),
    (isBlank st.description, "Description is required"),
    (durationInvalid st.duration, "Valid duration is required"),
    (priceInvalid st.price, "Valid price is required"),
    (isBlank st.mainImageUrl, "Main image URL is required"),
    (st.itineraryDescriptions.length == 0, "At least one itinerary day is required"),
    (st.itineraryDescriptions.any (fun d => isBlank d), "Please fill in all itinerary descriptions") ]

/-- The duration check as the claim words it: present and parsing to a
value `> 0` (so an unparsable duration — `NaN` — fails the check). -/
def claimedDurationOk (s : String) : Bool :=
  !(s == "") &&
    match jsParseInt s with
    | some n => 0 < n
    | none => false

/-- The price check as the claim words it: present and parsing to a
value `> 0`. -/
def claimedPriceOk (s : String) : Bool :=
  !(s == "") &&
    match jsParseFloat s with
    | some q => 0 < q.num
    | none => false

/-- The validation cascade as the claim states it: identical to
`validateForm` except that the duration and price checks demand an
actual positive parsed value. -/
def claimedValidateForm (st : FormState) : Option String :=
  if st.selectedDestinationId == "" then some "Please select a destination"
  else if isBlank st.title then some "Title is required"
  else if isBlank st.description then some "Description is required"
  else if !claimedDurationOk st.duration then some "Valid duration is required"
  else if !claimedPriceOk st.price then some "Valid price is required"
  else if isBlank st.mainImageUrl then some "Main image URL is required"
  else if st.itineraryDescriptions.length == 0 then some "At least one itinerary day is required"
  else if st.itineraryDescriptions.any (fun d => isBlank d) then
    some "Please fill in all itinerary descriptions"
  else none

/-- A form state passing every submit check. -/
def sampleValidState : FormState :=
  { title := "Bali Adventure", description := "Island tour", duration := "3",
    price := "499.99", mainImageUrl := "https://x/y.jpg", selectedDestinationId := "d1",
    itineraryDescriptions := ["Day1", "Day2", "Day3"], errorMsg := "", loading := false }

/-- A form state whose first failing check is the blank title. -/
def sampleBlankTitleState : FormState :=
  { sampleValidState with title := "   " }

/-- A form state with a non-numeric duration string. -/
def sampleNanDurationState : FormState :=
  { sampleValidState with duration := "abc" }

/-- A form state with a non-numeric price string. -/
def sampleNanPriceState : FormState :=
  { sampleValidState with price := "abc" }

/-- A form state whose duration has a fractional suffix after its
integer prefix. -/
def sampleFractionalDurationState : FormState :=
  { sampleValidState with duration := "2.9", itineraryDescriptions := ["Day1", "Day2"] }

/-- C10: for every in-bounds index, editing the day-`i` itinerary text
replaces only the entry at index `i`; the list length and every entry at
another index are unchanged. -/
theorem handleItineraryChange_frame (prev : List String) (i : Nat) (v : String)
    (h : i < prev.length) :
    (handleItineraryChange prev i v).length = prev.length ∧
    (handleItineraryChange prev i v)[i]? = some v ∧
    ∀ j, j ≠ i → (handleItineraryChange prev i v)[j]? = prev[j]? := by
  refine ⟨by simp [handleItineraryChange], ?_, ?_⟩
  · simp [handleItineraryChange, List.getElem?_set, h]
  · intro j hj
    simp only [handleItineraryChange, List.getElem?_set]
    rw [if_neg (fun he => hj he.symm)]

/-- C10 witness: a concrete in-bounds edit. -/
theorem handleItineraryChange_frame_witness :
    (handleItineraryChange ["a", "b", "c"] 1 "z").length = 3 ∧
    (handleItineraryChange ["a", "b", "c"] 1 "z")[1]? = some "z" ∧
    (handleItineraryChange ["a", "b", "c"] 1 "z")[0]? = (["a", "b", "c"] : List String)[0]? := by
  have t := handleItineraryChange_frame ["a", "b", "c"] 1 "z" (by decide)
  exact ⟨t.1, t.2.1, t.2.2 0 (by decide)⟩

/-- C4: after the duration-change effect the itinerary list length equals
max(parsed duration, 0); indices below both lengths keep their entries,
appended indices hold `""`, and a non-positive or unparsable duration
yields the empty list. -/
theorem durationEffect_resize (d : String) (prev : List String) :
    ((durationEffect d prev).length : Int) = max ((jsParseInt d).getD 0) 0 ∧
    (∀ i, i < prev.length → i < (durationEffect d prev).length →
      (durationEffect d prev)[i]? = prev[i]?) ∧
    (∀ i, prev.length ≤ i → i < (durationEffect d prev).length →
      (durationEffect d prev)[i]? = some "") ∧
    ((jsParseInt d).getD 0 ≤ 0 → durationEffect d prev = []) := by
  by_cases h : (0 : Int) < (jsParseInt d).getD 0
  · have hde : durationEffect d prev =
        prev.take ((jsParseInt d).getD 0).toNat ++
          List.replicate (((jsParseInt d).getD 0).toNat - prev.length) "" := by
      simp [durationEffect, h]
    have hlen : (durationEffect d prev).length = ((jsParseInt d).getD 0).toNat := by
      rw [hde]
      simp [List.length_take, List.length_replicate]
      omega
    refine ⟨?_, ?_, ?_, fun hle => absurd h (not_lt.mpr hle)⟩
    · rw [hlen, Int.toNat_of_nonneg h.le, max_eq_left h.le]
    · intro i hip hires
      have hin : i < ((jsParseInt d).getD 0).toNat := hlen ▸ hires
      rw [hde, List.getElem?_append_left (by simp [List.length_take]; omega)]
      simp [List.getElem?_take, hin]
    · intro i hpi hires
      have hin : i < ((jsParseInt d).getD 0).toNat := hlen ▸ hires
      rw [hde, List.getElem?_append_right (by simp [List.length_take]; omega)]
      have hlt : i - min ((jsParseInt d).getD 0).toNat prev.length <
          ((jsParseInt d).getD 0).toNat - prev.length := by omega
      simp [List.length_take, List.getElem?_replicate, hlt]
  · have hde : durationEffect d prev = [] := by simp [durationEffect, h]
    refine ⟨?_, ?_, ?_, fun _ => hde⟩
    · rw [hde, max_eq_right (le_of_not_lt h)]
      simp
    · intro i _ hires
      rw [hde] at hires
      simp at hires
    · intro i _ hires
      rw [hde] at hires
      simp at hires

/-- C4 witness: growing from 3 entries to 5 days preserves index 1 and
pads index 4 with `""`; an unparsable duration empties the list. -/
theorem durationEffect_resize_witness :
    ((durationEffect "5" ["a", "b", "c"]).length : Int) = max ((jsParseInt "5").getD 0) 0 ∧
    (durationEffect "5" ["a", "b", "c"])[1]? = (["a", "b", "c"] : List String)[1]? ∧
    (durationEffect "5" ["a", "b", "c"])[4]? = some "" ∧
    durationEffect "abc" ["a", "b"] = [] := by
  have t := durationEffect_resize "5" ["a", "b", "c"]
  have u := durationEffect_resize "abc" ["a", "b"]
  exact ⟨t.1, t.2.1 1 (by decide) (by decide), t.2.2.1 4 (by decide) (by decide),
    u.2.2.2 (by decide)⟩

/-- C5: when a submit check fails, the specific message of that check is
shown, the injected save callback is never invoked, and the close
callback is not invoked — the form stays open. -/
theorem handleSubmit_validation_failure (pkgId : Option String) (pkgRating : Option Rat)
    (out : Except String Unit) (st : FormState) (msg : String)
    (h : validateForm st = some msg) :
    handleSubmit pkgId pkgRating out st =
      ⟨{ st with errorMsg := msg, loading := false }, none, false⟩ := by
  simp [handleSubmit, h]

/-- C5 witness: submitting with a blank title shows the title message and
performs no save or close. -/
theorem handleSubmit_validation_failure_witness :
    handleSubmit none none (.ok ()) sampleBlankTitleState =
      ⟨{ sampleBlankTitleState with errorMsg := "Title is required", loading := false },
        none, false⟩ :=
  handleSubmit_validation_failure none none (.ok ()) sampleBlankTitleState
    "Title is required" (by decide)

/-- C9: a submit that does not close the modal (a validation failure or a
save-callback error) leaves every form field exactly as it was; only the
error message is set and the loading flag is returned to false. -/
theorem handleSubmit_failure_frame (pkgId : Option String) (pkgRating : Option Rat)
    (out : Except String Unit) (st : FormState)
    (h : (handleSubmit pkgId pkgRating out st).closed = false) :
    (handleSubmit pkgId pkgRating out st).state.title = st.title ∧
    (handleSubmit pkgId pkgRating out st).state.description = st.description ∧
    (handleSubmit pkgId pkgRating out st).state.duration = st.duration ∧
    (handleSubmit pkgId pkgRating out st).state.price = st.price ∧
    (handleSubmit pkgId pkgRating out st).state.mainImageUrl = st.mainImageUrl ∧
    (handleSubmit pkgId pkgRating out st).state.selectedDestinationId
      = st.selectedDestinationId ∧
    (handleSubmit pkgId pkgRating out st).state.itineraryDescriptions
      = st.itineraryDescriptions ∧
    (handleSubmit pkgId pkgRating out st).state.loading = false ∧
    (handleSubmit pkgId pkgRating out st).state.errorMsg =
      (match validateForm st with
       | some m => m
       | none =>
         match out with
         | .ok _ => ""
         | .error m => m) := by
  cases hv : validateForm st with
  | some m => simp [handleSubmit, hv]
  | none =>
    cases out with
    | ok u =>
      exfalso
      simp [handleSubmit, hv] at h
    | error m => simp [handleSubmit, hv]

/-- C9 witness: a failing save callback on a valid form leaves the
itinerary list untouched and returns loading to false. -/
theorem handleSubmit_failure_frame_witness :
    (handleSubmit none none (.error "update failed") sampleValidState).state.itineraryDescriptions
      = sampleValidState.itineraryDescriptions ∧
    (handleSubmit none none (.error "update failed") sampleValidState).state.loading = false := by
  have t := handleSubmit_failure_frame none none (.error "update failed") sampleValidState
    (by decide)
  exact ⟨t.2.2.2.2.2.2.1, t.2.2.2.2.2.2.2.1⟩

/-- C8: a duration string whose integer-prefix parse is positive passes
the duration check, and whenever the save callback is invoked the
assembled record's duration is that integer prefix. -/
theorem duration_integer_prefix (st : FormState) (n : Int)
    (hp : jsParseInt st.duration = some n) (hn : 0 < n) :
    durationInvalid st.duration = false ∧
    (∀ pkgId pkgRating out a,
      (handleSubmit pkgId pkgRating out st).saveArg = some a → a.duration = some n) := by
  have hne : st.duration ≠ "" := by
    intro he
    have h0 : jsParseInt "" = none := by decide
    rw [he, h0] at hp
    exact Option.noConfusion hp
  constructor
  · have hb : (st.duration == "") = false := beq_eq_false_iff_ne.mpr hne
    simp [durationInvalid, hp, hb, decide_eq_false (not_le.mpr hn)]
  · intro pkgId pkgRating out a ha
    cases hv : validateForm st with
    | some m => simp [handleSubmit, hv] at ha
    | none =>
      cases out with
      | ok u =>
        simp [handleSubmit, hv] at ha
        rw [← ha]
        simp [assembleSaveArg, hp]
      | error m =>
        simp [handleSubmit, hv] at ha
        rw [← ha]
        simp [assembleSaveArg, hp]

/-- C8 witness: `parseInt("2.9") = 2`, so the duration check passes and
the assembled record stores 2. -/
theorem duration_integer_prefix_witness :
    durationInvalid "2.9" = false ∧
    (assembleSaveArg none none sampleFractionalDurationState).duration = some 2 := by
  have t := duration_integer_prefix sampleFractionalDurationState 2 (by decide) (by decide)
  exact ⟨t.1, t.2 none none (.ok ())
    (assembleSaveArg none none sampleFractionalDurationState) rfl⟩

/-- C3 counterexample: with duration `"abc"` the claimed first failing
check is the duration check, and with price `"abc"` the price check; but
the code's validation passes every check on those states (`NaN <= 0` is
false) and the submit proceeds to save and close. -/
theorem validateForm_order_counterexample :
    claimedValidateForm sampleNanDurationState = some "Valid duration is required" ∧
    validateForm sampleNanDurationState = none ∧
    (handleSubmit none none (.ok ()) sampleNanDurationState).closed = true ∧
    claimedValidateForm sampleNanPriceState = some "Valid price is required" ∧
    validateForm sampleNanPriceState = none := by
  refine ⟨by decide, by decide, by decide, by decide, by decide⟩

/-- C3 amended: the submit checks run in the stated fixed order and the
message shown is that of the first failing check, where the duration and
price checks are the code's `durationInvalid`/`priceInvalid` (a string
parsing to `NaN` passes them). -/
theorem validateForm_first_failing (st : FormState) :
    validateForm st = firstFailing (submitChecks st) ∧
    (∀ msg pkgId pkgRating out, validateForm st = some msg →
      (handleSubmit pkgId pkgRating out st).state.errorMsg = msg) := by
  constructor
  · rfl
  · intro msg pkgId pkgRating out h
    simp [handleSubmit, h]

/-- C3 witness: the blank-title state surfaces exactly the title message,
the first failing check. -/
theorem validateForm_first_failing_witness :
    validateForm sampleBlankTitleState = firstFailing (submitChecks sampleBlankTitleState) ∧
    (handleSubmit none none (.ok ()) sampleBlankTitleState).state.errorMsg
      = "Title is required" := by
  have t := validateForm_first_failing sampleBlankTitleState
  exact ⟨t.1, t.2 "Title is required" none none (.ok ()) (by decide)⟩

/-- A sample cached package row with destination `"d1"`. -/
def pkgA : Pkg := ⟨"p1", "d1", "A", 2⟩

/-- A sample cached package row with destination `"d2"`. -/
def pkgB : Pkg := ⟨"p2", "d2", "B", 1⟩

/-- C6: a successful fetch replaces the cached list with the rows the
backend returned for the built query (restricted to the given
destination when a filter is present); a backend failure sets the error
string and leaves the cached list exactly as it was. -/
theorem fetchPackages_spec (st : HookState) (db : List Pkg) (filt : Option String) :
    (fetchPackages (.ok (some (buildQuery filt db))) st).packages = buildQuery filt db ∧
    (∀ d p, filt = some d → p ∈ buildQuery filt db → p.destination_id = d) ∧
    (∀ msg, fetchPackages (.error msg) st
      = { st with errorMsg := some msg, loading := false }) := by
  refine ⟨rfl, ?_, fun msg => rfl⟩
  intro d p hf hp
  subst hf
  rcases List.mem_filter.mp hp with ⟨_, h2⟩
  exact eq_of_beq h2

/-- C6 witness: fetching with filter `"d1"` stores exactly the matching
rows; a failed fetch only records the error. -/
theorem fetchPackages_spec_witness :
    (fetchPackages (.ok (some (buildQuery (some "d1") [pkgA, pkgB])))
        ⟨[], true, none⟩).packages = buildQuery (some "d1") [pkgA, pkgB] ∧
    pkgA.destination_id = "d1" ∧
    fetchPackages (.error "boom") ⟨[pkgA], false, none⟩
      = ⟨[pkgA], false, some "boom"⟩ := by
  have t := fetchPackages_spec ⟨[], true, none⟩ [pkgA, pkgB] (some "d1")
  have u := fetchPackages_spec ⟨[pkgA], false, none⟩ [pkgA, pkgB] (some "d1")
  exact ⟨t.1, t.2.1 "d1" pkgA rfl (by decide), u.2.2 "boom"⟩

/-- C7: a successful delete leaves the cache equal to the original list
filtered on a differing id: exactly the matching entries are gone, every
other entry is still present unchanged and in its original relative
order, and the other hook fields are untouched. -/
theorem deletePackage_removes_exactly (id : String) (st st2 : HookState)
    (h : deletePackage id (.ok ()) st = .ok st2) :
    st2.packages = st.packages.filter (fun p => p.id != id) ∧
    st2.packages.Sublist st.packages ∧
    (∀ p, p ∈ st2.packages ↔ p ∈ st.packages ∧ p.id ≠ id) ∧
    st2.loading = st.loading ∧ st2.errorMsg = st.errorMsg := by
  simp only [deletePackage, Except.ok.injEq] at h
  subst h
  refine ⟨rfl, List.filter_sublist _, fun p => ?_, rfl, rfl⟩
  simp [List.mem_filter]

/-- C7 witness: deleting `"p1"` from a two-entry cache keeps exactly the
other entry, in place. -/
theorem deletePackage_removes_exactly_witness :
    ((⟨[pkgB], false, none⟩ : HookState).packages).Sublist
      ((⟨[pkgA, pkgB], false, none⟩ : HookState).packages) ∧
    (pkgB ∈ (⟨[pkgB], false, none⟩ : HookState).packages ↔
      pkgB ∈ (⟨[pkgA, pkgB], false, none⟩ : HookState).packages ∧ pkgB.id ≠ "p1") := by
  have t := deletePackage_removes_exactly "p1" ⟨[pkgA, pkgB], false, none⟩
    ⟨[pkgB], false, none⟩ (by rfl)
  exact ⟨t.2.1, t.2.2.1 pkgB⟩

/-- C2 counterexample: updating the itinerary of package `"p1"` from a
5-day description list to a 1-day one leaves `no_of_days` at 5 — the
update path writes only the description list, never the record count —
and a backend failure returned by the existence probe does not propagate
to the caller: the call still returns success (taking the insert path,
as the probe's destructuring reads only `data`). -/
theorem addOrUpdateItinerary_counterexample :
    addOrUpdateItinerary "p1" ["x"] [⟨"p1", 5, ["a", "b", "c", "d", "e"]⟩] none none
      = .ok [⟨"p1", 5, ["x"]⟩] ∧
    (5 : Nat) ≠ (["x"] : List String).length ∧
    addOrUpdateItinerary "p1" ["x"] [⟨"p1", 5, ["a", "b", "c", "d", "e"]⟩]
        (some "probe failed") none
      = .ok [⟨"p1", 5, ["a", "b", "c", "d", "e"]⟩, ⟨"p1", 1, ["x"]⟩] :=
  ⟨rfl, by decide, rfl⟩

/-- C2 amended: the upsert checks existence by package id; a failing
backend write (update or insert) propagates; without an existing row it
inserts a new row whose day count equals the description list's length;
with an existing row it replaces only that row's description list,
leaving its `no_of_days` (and every other row) unchanged. A failure
returned by the existence probe, however, never propagates: it is
silently treated as absence, so the call takes the insert path and
succeeds whenever the write does. -/
theorem addOrUpdateItinerary_spec (packageId : String) (descs : List String)
    (db : List ItinRow) (writeErr : Option String) :
    (∀ e, writeErr = some e →
      addOrUpdateItinerary packageId descs db none writeErr = .error e) ∧
    ((db.find? (fun r => r.package_id == packageId)).isNone →
      addOrUpdateItinerary packageId descs db none none
        = .ok (db ++ [⟨packageId, descs.length, descs⟩])) ∧
    (∀ ce, addOrUpdateItinerary packageId descs db (some ce) none
        = .ok (db ++ [⟨packageId, descs.length, descs⟩])) ∧
    (∀ ce e, addOrUpdateItinerary packageId descs db (some ce) (some e) = .error e) ∧
    ((db.find? (fun r => r.package_id == packageId)).isSome →
      ∀ db2, addOrUpdateItinerary packageId descs db none none = .ok db2 →
        db2.length = db.length ∧
        ∀ (i : Nat) (row : ItinRow), db[i]? = some row →
          db2[i]? = some (if row.package_id == packageId
                          then { row with description := descs } else row)) := by
  refine ⟨?_, ?_, ?_, ?_, ?_⟩
  · intro e he
    subst he
    cases hf : db.find? (fun r => r.package_id == packageId) <;>
      simp [addOrUpdateItinerary, hf]
  · intro hnone
    rw [Option.isNone_iff_eq_none] at hnone
    simp [addOrUpdateItinerary, hnone]
  · intro ce
    simp [addOrUpdateItinerary]
  · intro ce e
    simp [addOrUpdateItinerary]
  · intro hsome db2 hdb2
    rw [Option.isSome_iff_exists] at hsome
    obtain ⟨row0, hrow0⟩ := hsome
    simp [addOrUpdateItinerary, hrow0] at hdb2
    constructor
    · rw [← hdb2]
      simp
    · intro i row hi
      rw [← hdb2, List.getElem?_map, hi]
      by_cases hc : row.package_id = packageId
      · simp [hc]
      · simp [hc]

/-- C2 amended witness: the update scenario of the counterexample
through the amended theorem, plus the swallowed probe failure. -/
theorem addOrUpdateItinerary_spec_witness :
    (([⟨"p1", 5, ["a"]⟩] : List ItinRow).find?
      (fun r => r.package_id == "p1")).isSome = true ∧
    ([⟨"p1", 5, ["x", "y"]⟩] : List ItinRow).length
      = ([⟨"p1", 5, ["a"]⟩] : List ItinRow).length ∧
    addOrUpdateItinerary "p1" ["x", "y"] [⟨"p1", 5, ["a"]⟩] (some "probe failed") none
      = .ok [⟨"p1", 5, ["a"]⟩, ⟨"p1", 2, ["x", "y"]⟩] := by
  have s := addOrUpdateItinerary_spec "p1" ["x", "y"] [⟨"p1", 5, ["a"]⟩] none
  have t := s.2.2.2.2 (by decide) [⟨"p1", 5, ["x", "y"]⟩] (by rfl)
  exact ⟨by decide, t.1, s.2.2.1 "probe failed"⟩

/-- C1: the composite save rejects an empty or blank-containing
description list before any write; otherwise the package write runs
first (update when an id is present, insert when not), a package-write
failure propagates with the itinerary never written, and on success the
itinerary upsert runs second under the saved package's id, its outcome —
including failure — becoming the composite's. -/
theorem addOrUpdatePackageWithItinerary_spec (pkgId : Option String) (descs : List String)
    (pkgWrite : Except String Pkg) (itinDb : List ItinRow)
    (checkErr writeErr : Option String) :
    (descs = [] →
      addOrUpdatePackageWithItinerary pkgId descs pkgWrite itinDb checkErr writeErr
        = (.error "Itinerary descriptions are required", [])) ∧
    ((∃ d ∈ descs, isBlank d) →
      addOrUpdatePackageWithItinerary pkgId descs pkgWrite itinDb checkErr writeErr
        = (.error "All itinerary descriptions must be filled out", [])) ∧
    (descs ≠ [] → (∀ d ∈ descs, isBlank d = false) →
      (∀ e, pkgWrite = .error e →
        addOrUpdatePackageWithItinerary pkgId descs pkgWrite itinDb checkErr writeErr
          = (.error e, [pkgEvent pkgId]) ∧
        ∀ pid, SaveEvent.itineraryUpsert pid
          ∉ (addOrUpdatePackageWithItinerary pkgId descs pkgWrite itinDb checkErr writeErr).2) ∧
      (∀ saved, pkgWrite = .ok saved →
        addOrUpdatePackageWithItinerary pkgId descs pkgWrite itinDb checkErr writeErr
          = ((addOrUpdateItinerary saved.id descs itinDb checkErr writeErr).map
              (fun db2 => (saved, db2)),
             [pkgEvent pkgId, SaveEvent.itineraryUpsert saved.id]))) := by
  refine ⟨?_, ?_, ?_⟩
  · rintro rfl
    rfl
  · rintro ⟨d, hd, hbd⟩
    have hlen : ¬ descs.length = 0 := by
      intro h0
      rw [List.length_eq_zero] at h0
      subst h0
      simp at hd
    have hany : descs.any (fun d => isBlank d) = true := List.any_eq_true.mpr ⟨d, hd, hbd⟩
    simp [addOrUpdatePackageWithItinerary, hlen, hany]
  · intro hne hall
    have hlen : ¬ descs.length = 0 := by
      simpa [List.length_eq_zero] using hne
    have hany : descs.any (fun d => isBlank d) = false := by
      rw [List.any_eq_false]
      intro x hx
      simp [hall x hx]
    constructor
    · rintro e rfl
      constructor
      · simp [addOrUpdatePackageWithItinerary, hlen, hany]
      · intro pid
        simp only [addOrUpdatePackageWithItinerary, hlen, hany]
        cases pkgId <;> simp [pkgEvent]
    · rintro saved rfl
      simp only [addOrUpdatePackageWithItinerary, hlen, hany]
      cases haoi : addOrUpdateItinerary saved.id descs itinDb checkErr writeErr <;>
        simp [haoi, Except.map]

/-- C1 witness: a failing package update on a valid description list
propagates the update error and attempts no itinerary write. -/
theorem addOrUpdatePackageWithItinerary_spec_witness :
    addOrUpdatePackageWithItinerary (some "p1") ["Day1"] (.error "update failed") [] none none
      = (.error "update failed", [pkgEvent (some "p1")]) ∧
    SaveEvent.itineraryUpsert "p1" ∉
      (addOrUpdatePackageWithItinerary (some "p1") ["Day1"]
        (.error "update failed") [] none none).2 := by
  have t := ((addOrUpdatePackageWithItinerary_spec (some "p1") ["Day1"]
    (.error "update failed") [] none none).2.2 (by decide)
      (by decide)).1 "update failed" rfl
  exact ⟨t.1, t.2 "p1"⟩

end Travelbolt
